import Mathlib

/-!
Shallow embedding of the slurm-cluster-health-manager core
(node_health_check_runner.py, health_manager/cluster_health_orchestrator.py,
ghr_submission_controller.py, ghr_payload_utils.py), together with theorems
settling the specification claims about it.

External effects (subprocess execution, SSH, file reads of probe logs,
HTTP submission, wall-clock time) are modelled as oracle inputs supplied to
the embedded functions; the control flow, data shapes and branch structure
are translated from the Python source.  Dynamic dicts are modelled as
structures whose `Option` fields record key presence, so that Python's
`dict.get(key, default)` / `dict.setdefault` semantics are preserved.
Timestamps compared by the deduplication scan are modelled as integers
(seconds), so `skipWindowHours` becomes `hours * 3600`.
-/

namespace HealthManager

/-! ## GHR escalation submitter (ghr_submission_controller.py, ghr_payload_utils.py) -/

/-- One parsed line of the durable escalation log, as read by
`has_recent_success`: the `"timestamp"` value (parsed by
`datetime.fromisoformat`, modelled as integer seconds) and the optional
`"status"` value (`entry.get("status")` yields `None` when absent). -/
structure ParsedEntry where
  timestamp : Int
  status : Option String
  deriving Repr, DecidableEq

/-- A raw log line: `none` models a line on which `json.loads`, the
`entry["timestamp"]` lookup or `datetime.fromisoformat` raises, which the
scan catches and skips (`except Exception: continue`). -/
abbrev LogLine := Option ParsedEntry

/-- `has_recent_success` from ghr_submission_controller.py: scan the log
lines from newest to oldest (`reversed(f.readlines())`) and return `True`
as soon as a parsable entry has `status == "success"` and
`timestamp >= cutoff`.  An absent log file is modelled as the empty list. -/
def has_recent_success (log : List LogLine) (cutoff : Int) : Bool :=
  log.reverse.any fun line =>
    match line with
    | some e => e.status == some "success" && cutoff ≤ e.timestamp
    | none => false

/-- One element of `all_results` as read by `run_ghr_if_needed`: only the
keys the controller accesses are modelled, each as an `Option` recording
whether the key is present in the dict. -/
structure GhrEntry where
  node : Option String
  nhc_error_codes : Option (List String)
  nccl_error_codes : Option (List String)
  multi_error_codes : Option (List String)
  /-- The combined key written by node_health_check_runner.py's result
  dict; present there, but never read by `run_ghr_if_needed`. -/
  error_codes : Option (List String)
  deriving Repr, DecidableEq

/-- One element of the `failed_nodes` list built by `run_ghr_if_needed`:
`{"node": entry.get("node"), "errors": codes}`. -/
structure FailedNode where
  node : Option String
  errors : List String
  deriving Repr, DecidableEq

/-- The error-code extraction of `run_ghr_if_needed` (lines 66-74):
`entry.get("nhc_error_codes", []) + entry.get("nccl_error_codes", []) +
entry.get("multi_error_codes", [])`. -/
def ghrCodesOf (e : GhrEntry) : List String :=
  e.nhc_error_codes.getD [] ++ e.nccl_error_codes.getD [] ++ e.multi_error_codes.getD []

/-- The `failed_nodes` batch built by `run_ghr_if_needed` (lines 66-74),
before the `GHR_MAX_NODES` trim. -/
def ghrFailedNodes (entries : List GhrEntry) : List FailedNode :=
  entries.filterMap fun e =>
    if ghrCodesOf e ≠ [] then some ⟨e.node, ghrCodesOf e⟩ else none

/-- The `GHR_MAX_NODES` trim applied to the batch (lines 81-83):
`failed_nodes = failed_nodes[:GHR_MAX_NODES]` when the list is longer. -/
def ghrBatch (maxNodes : Nat) (entries : List GhrEntry) : List FailedNode :=
  let failedNodes := ghrFailedNodes entries
  if failedNodes.length > maxNodes then failedNodes.take maxNodes else failedNodes

/-- The incident payload built by `build_ghr_payload`
(ghr_payload_utils.py): category, description, additional properties,
caller-supplied timestamp, node list, and a `requestId` derived from the
current wall-clock time (`str(datetime.now(...).timestamp()).replace('.','')`),
supplied here as the oracle `genId`. -/
structure GhrPayload where
  category : String
  description : String
  additional : List (String × String)
  timestamp : String
  nodes : List FailedNode
  requestId : String
  deriving Repr, DecidableEq

/-- `build_ghr_payload` from ghr_payload_utils.py; the generated
`requestId` value is the oracle `genId` (wall-clock derived in the source). -/
def build_ghr_payload (category description : String)
    (additional : List (String × String)) (nodes : List FailedNode)
    (timestamp genId : String) : GhrPayload :=
  { category := category, description := description, additional := additional,
    timestamp := timestamp, nodes := nodes, requestId := genId }

/-- One `EscalationRecord` appended by `record_ghr_log`
(ghr_payload_utils.py lines 107-123). -/
structure GhrRecord where
  timestamp : String
  status : String
  requestId : String
  nodes : List FailedNode
  deriving Repr, DecidableEq

/-- Static configuration read by `run_ghr_if_needed` from
health_manager_config.py. -/
structure GhrConfig where
  enable : Bool
  skipHours : Nat
  maxNodes : Nat
  maxRetries : Nat
  category : String
  description : String
  additional : List (String × String)
  deriving Repr

/-- The `for attempt in range(1, GHR_MAX_RETRIES + 1)` retry loop of
`run_ghr_if_needed` (lines 98-112): each attempt submits the (fixed)
payload via the oracle `submitOk`, sleeps `GHR_RETRY_INTERVAL` on failure,
appends one record in the `finally` block, and breaks on success.  Returns
the appended records together with the number of `time.sleep` calls
performed; `remaining` is the number of loop iterations left
(`maxRetries - attempt + 1` at entry). -/
def ghrRetryLoop (reqId : String) (nodes : List FailedNode)
    (submitOk : Nat → Bool) (attemptTs : Nat → String) :
    (attempt remaining : Nat) → List GhrRecord × Nat
  | _, 0 => ([], 0)
  | attempt, remaining + 1 =>
    let ok := submitOk attempt
    let entry : GhrRecord :=
      { timestamp := attemptTs attempt,
        status := if ok then "success" else "failure",
        requestId := reqId, nodes := nodes }
    if ok then ([entry], 0)
    else
      let rest := ghrRetryLoop reqId nodes submitOk attemptTs (attempt + 1) remaining
      (entry :: rest.1, rest.2 + 1)

/-- Observable outcome of one `run_ghr_if_needed` call. -/
inductive GhrOutcome where
  /-- `ENABLE_GHR` is false: return before doing anything. -/
  | disabled
  /-- `has_recent_success` returned true: return without building a batch. -/
  | skippedRecent
  /-- `failed_nodes` is empty: return without submitting. -/
  | noFailedNodes
  /-- Submission attempted: built payload, appended records, sleep count. -/
  | submitted (payload : GhrPayload) (records : List GhrRecord) (sleeps : Nat)
  deriving Repr, DecidableEq

/-- `run_ghr_if_needed` from ghr_submission_controller.py (lines 48-115).
Oracles: `log` is the parsed durable log, `now` the current UTC time in
seconds, `payloadTs` and `genId` the wall-clock payload timestamp and
generated request id, `submitOk` whether `submit_ghr_request` succeeds on a
given attempt, `attemptTs` the per-attempt log timestamp. -/
def run_ghr_if_needed (cfg : GhrConfig) (log : List LogLine) (now : Int)
    (allResults : List GhrEntry) (payloadTs genId : String)
    (submitOk : Nat → Bool) (attemptTs : Nat → String) : GhrOutcome :=
  if cfg.enable = false then .disabled
  else if has_recent_success log (now - cfg.skipHours * 3600) then .skippedRecent
  else
    if ghrFailedNodes allResults = [] then .noFailedNodes
    else
      let failedNodes := ghrBatch cfg.maxNodes allResults
      let payload := build_ghr_payload cfg.category cfg.description
        cfg.additional failedNodes payloadTs genId
      let run := ghrRetryLoop payload.requestId failedNodes submitOk attemptTs 1 cfg.maxRetries
      .submitted payload run.1 run.2

/-- Timestamps of the parsable `success` entries of the log, in file order. -/
def successTimes (log : List LogLine) : List Int :=
  log.filterMap fun line =>
    match line with
    | some e => if e.status == some "success" then some e.timestamp else none
    | none => none

/-- Timestamp of the most recent `success` entry of the log (`none` when the
log holds no parsable success entry). -/
def mostRecentSuccessTs (log : List LogLine) : Option Int :=
  (successTimes log).max?

/-! ## Probe adapters (node_health_check_runner.py) -/

/-- A word character in the sense of the `\b` boundaries of the regex
`\b(NHC\d{4})\b` used on the NHC log text. -/
def isWordChar (c : Char) : Bool := c.isAlphanum || c == '_'

/-- Whether a match may start here: the previous character (if any) is not
a word character. -/
def boundaryOk : Option Char → Bool
  | none => true
  | some c => !isWordChar c

/-- `re.findall(r"\b(NHC\d{4})\b", txt)`: scan left to right for
non-overlapping occurrences of `NHC` followed by exactly four digits,
delimited by word boundaries on both sides. -/
def findNhcCodes : Option Char → List Char → List String
  | prev, c1 :: c2 :: c3 :: d1 :: d2 :: d3 :: d4 :: rest =>
    if boundaryOk prev && c1 == 'N' && c2 == 'H' && c3 == 'C' &&
        d1.isDigit && d2.isDigit && d3.isDigit && d4.isDigit &&
        (match rest with | [] => true | c :: _ => !isWordChar c) then
      String.mk [c1, c2, c3, d1, d2, d3, d4] :: findNhcCodes (some d4) rest
    else
      findNhcCodes (some c1) (c2 :: c3 :: d1 :: d2 :: d3 :: d4 :: rest)
  | _, c :: rest => findNhcCodes (some c) rest
  | _, [] => []

/-- Python's `sub in txt` substring test, on the character lists. -/
def containsSub (pat txt : String) : Bool := decide (pat.toList <:+: txt.toList)

/-- Python's `s.endswith(pat)`, on the character lists. -/
def strEndsWith (s pat : String) : Bool := pat.toList.isSuffixOf s.toList

/-- The whitespace stripped by Python's `str.strip()`. -/
def isPySpace (c : Char) : Bool :=
  c == ' ' || c == '\t' || c == '\n' || c == '\r'

/-- Python's `s.strip()`, on a character list. -/
def stripChars (cs : List Char) : List Char :=
  ((cs.dropWhile isPySpace).reverse.dropWhile isPySpace).reverse

/-- Split a character list at newline characters (the line structure that
`txt.splitlines()` iterates; a trailing empty line is harmless here since
it matches no line pattern below). -/
def splitNl : List Char → List (List Char)
  | [] => [[]]
  | c :: rest =>
    if c == '\n' then [] :: splitNl rest
    else
      match splitNl rest with
      | l :: ls => (c :: l) :: ls
      | [] => [[c]]

/-- The `gpu_detail` dict returned by `run_gpu_health_check`: the
`nhc_error_codes` key is absent (`none`) on the scheduler-node early
return, where the source returns `{"log": ""}` only. -/
structure GpuDetail where
  log : String
  nhc_error_codes : Option (List String)
  deriving Repr, DecidableEq

/-- Oracle for the external effects of `run_gpu_health_check`: how the
`subprocess.run` of the NHC script and the subsequent log read behave. -/
inductive GpuExec where
  /-- Script exited 0 and the log file was read as `txt`. -/
  | ok (txt : String)
  /-- `r.returncode != 0`. -/
  | scriptFailed
  /-- `subprocess.TimeoutExpired` after 120 s. -/
  | timeout
  /-- Any other exception (including a failing log read). -/
  | execError
  deriving Repr, DecidableEq

/-- The `PHYSICAL HOST NAME:` / `VM NAME:` extraction loop over the NHC
log lines; the last matching line wins, `split(":", 1)[1].strip()` is the
text after the first colon, trimmed. -/
def extractHostInfo (txt : String) : String × String :=
  (splitNl txt.toList).foldl
    (fun acc line =>
      if ("PHYSICAL HOST NAME:".toList).isPrefixOf line then
        (String.mk (stripChars (line.drop 19)), acc.2)
      else if ("VM NAME:".toList).isPrefixOf line then
        (acc.1, String.mk (stripChars (line.drop 8)))
      else acc)
    ("", "")

/-- `run_gpu_health_check` from node_health_check_runner.py (lines 29-80).
Returns `(ok, gpu_detail, physical_host_name, vm_name)`.  A node name
ending in `-scheduler` short-circuits to a pass with an empty detail; all
adapter-level failures (non-zero exit, timeout, other exception) return
`ok = False` with an empty `nhc_error_codes` list. -/
def run_gpu_health_check (nodeName : String) (exec : GpuExec) :
    Bool × GpuDetail × String × String :=
  if strEndsWith nodeName "-scheduler" then (true, ⟨"", none⟩, "", "")
  else
    match exec with
    | .scriptFailed => (false, ⟨"", some []⟩, "", "")
    | .timeout => (false, ⟨"", some []⟩, "", "")
    | .execError => (false, ⟨"", some []⟩, "", "")
    | .ok txt =>
      let codes := findNhcCodes none txt.toList
      let ok := !containsSub "FAIL" txt && !containsSub "Error" txt
      let info := extractHostInfo txt
      (ok, ⟨txt, some codes⟩, info.1, info.2)

/-- Oracle outcome of reading and parsing a NCCL log file for the line
starting with `4G` and its seventh column (bandwidth).  Measured
bandwidths are modelled as rationals. -/
inductive NcclParse where
  /-- Reading the log raised (append a parse-failure code). -/
  | readError
  /-- Log read, but no bandwidth value was extracted. -/
  | noBandwidth
  /-- Bandwidth value extracted. -/
  | bw (q : ℚ)
  deriving Repr, DecidableEq

/-- Oracle for the external effects of `run_nccl_test`:
`smi = none` models an exception while counting GPUs via `nvidia-smi -L`;
otherwise `smi` carries the stdout lines (GPU count = number of distinct
lines).  `execOk` is whether the `all_reduce_perf` run returns without
raising, `parse` the log-parsing outcome. -/
structure NcclInput where
  smi : Option (List String)
  execOk : Bool
  parse : NcclParse
  deriving Repr, DecidableEq

/-- `run_nccl_test` from node_health_check_runner.py (lines 86-160).
Returns `(ok, bandwidth, nccl_error_codes)` with `ok = none` meaning the
neutral Skip/N-A outcome. -/
def run_nccl_test (bwThreshold : ℚ) (inp : NcclInput) :
    Option Bool × Option ℚ × List String :=
  match inp.smi with
  | none => (none, none, [])
  | some lines =>
    let gpuCount := lines.dedup.length
    if gpuCount = 0 then (some true, some 0, ["NCCL1001"])
    else if gpuCount < 8 then (none, none, ["NCCL1002"])
    else if inp.execOk = false then (some false, some 0, ["NCCL1003"])
    else
      match inp.parse with
      | .readError => (some false, some 0, ["NCCL1004", "NCCL1005"])
      | .noBandwidth => (some false, some 0, ["NCCL1005"])
      | .bw q =>
        if bwThreshold ≤ q then (some true, some q, [])
        else (some false, some q, ["NCCL1006"])

/-- The tri-state `passed` value of the multi-node test
(`True | False | "N/A"` in the source). -/
inductive BoolNA where
  | val (b : Bool)
  | na
  deriving Repr, DecidableEq

/-- Return dict of `run_nccl_multi_node_test`; `busbw = none` models the
`"N/A"` string value. -/
structure MultiResult where
  nodes : List String
  busbw : Option ℚ
  passed : BoolNA
  multi_error_codes : List String
  deriving Repr, DecidableEq

/-- Oracle for `run_nccl_multi_node_test`: `gpuCount n` is the parsed
output of `ssh n "nvidia-smi -L | wc -l"` (`none` = any exception),
`execOk` / `parse` as for the single-node test. -/
structure MultiInput where
  gpuCount : String → Option Nat
  execOk : Bool
  parse : NcclParse

/-- The per-node GPU-count check loop of `run_nccl_multi_node_test`:
returns the error code of the first node that fails the check, if any. -/
def scanGpus (gpuCount : String → Option Nat) : List String → Option String
  | [] => none
  | n :: rest =>
    match gpuCount n with
    | none => some "NCCL_MULTI1003"
    | some c => if c < 8 then some "NCCL_MULTI1002" else scanGpus gpuCount rest

/-- `run_nccl_multi_node_test` from node_health_check_runner.py
(lines 166-238).  `nodes = [f"{NODE_PREFIX}-{i}" for i in range(1, NODE_COUNT+1)]`. -/
def run_nccl_multi_node_test (nodePfx : String) (nodeCount : Nat)
    (multiThreshold : ℚ) (inp : MultiInput) : MultiResult :=
  let nodes := (List.range nodeCount).map fun i => nodePfx ++ "-" ++ toString (i + 1)
  if nodes.length < 2 then ⟨nodes, none, .na, ["NCCL_MULTI1001"]⟩
  else
    match scanGpus inp.gpuCount nodes with
    | some code => ⟨nodes, none, .na, [code]⟩
    | none =>
      if inp.execOk = false then ⟨nodes, none, .val false, ["NCCL_MULTI1004"]⟩
      else
        match inp.parse with
        | .readError => ⟨nodes, none, .val false, ["NCCL_MULTI1005", "NCCL_MULTI1006"]⟩
        | .noBandwidth => ⟨nodes, none, .val false, ["NCCL_MULTI1006"]⟩
        | .bw q =>
          if multiThreshold ≤ q then ⟨nodes, some q, .val true, []⟩
          else ⟨nodes, some q, .val false, ["NCCL_MULTI1007"]⟩

/-! ## Node recovery state machine (node_health_check_runner.py `main`) -/

/-- Configuration of one runner process, from health_manager_config.py and
the environment variables set by the orchestrator. -/
structure RunnerConfig where
  nodeName : String
  timestamp : String
  nodePfx : String
  nodeCount : Nat
  bwThreshold : ℚ
  multiThreshold : ℚ
  /-- `ENABLE_REBOOT_ON_FAILURE`. -/
  enable : Bool
  /-- `MAX_REBOOT_COUNT`. -/
  maxr : Nat
  healthCheckVersion : String

/-- Oracle inputs for one iteration of the runner's `while True` loop
(one full probe pass). -/
structure RunnerIter where
  gpu : GpuExec
  nccl : NcclInput
  multi : MultiInput

/-- The result dict assembled in each loop iteration of the runner's
`main` and persisted by `save_result`; `impactedResourceId` is only set
on the final save (`none` models the absent key). -/
structure RunnerResult where
  node : String
  timestamp : String
  gpu_check : Bool
  gpu_detail : GpuDetail
  error_codes : List String
  nccl_status : String
  nccl_bw : Option ℚ
  nccl_multi_nodes : List String
  nccl_multi_bw : Option ℚ
  multi_status : String
  reboot_count : Nat
  initial_returncode : Nat
  final_returncode : Nat
  health_check_version : String
  physical_host_name : String
  vm_name : String
  impactedResourceId : Option String
  deriving Repr, DecidableEq

/-- The `overall = all(checks)` computation of one loop iteration: the GPU
result always participates, the NCCL results only when not skipped. -/
def iterOverall (cfg : RunnerConfig) (it : RunnerIter) : Bool :=
  let gpuOk := (run_gpu_health_check cfg.nodeName it.gpu).1
  let ncclOk := (run_nccl_test cfg.bwThreshold it.nccl).1
  let multiOk := (run_nccl_multi_node_test cfg.nodePfx cfg.nodeCount cfg.multiThreshold it.multi).passed
  let checks := [gpuOk] ++ (match ncclOk with | some b => [b] | none => [])
    ++ (match multiOk with | .val b => [b] | .na => [])
  checks.all id

/-- One loop iteration of the runner's `main` (lines 322-371): run the
three probes, clear the codes of skipped probes, and assemble the result
dict with `initial_returncode = 0 if overall else 1`, `final_returncode = 0`. -/
def buildIterResult (cfg : RunnerConfig) (it : RunnerIter) (rebootCount : Nat) :
    RunnerResult × Bool :=
  let gpu := run_gpu_health_check cfg.nodeName it.gpu
  let nhcErrCodes := gpu.2.1.nhc_error_codes.getD []
  let nccl := run_nccl_test cfg.bwThreshold it.nccl
  let ncclErrCodes := if nccl.1 = none then [] else nccl.2.2
  let multi := run_nccl_multi_node_test cfg.nodePfx cfg.nodeCount cfg.multiThreshold it.multi
  let multiErrCodes := if multi.passed = .na then [] else multi.multi_error_codes
  let overall := iterOverall cfg it
  ({ node := cfg.nodeName
     timestamp := cfg.timestamp
     gpu_check := gpu.1
     gpu_detail := gpu.2.1
     error_codes := nhcErrCodes ++ ncclErrCodes ++ multiErrCodes
     nccl_status := match nccl.1 with
       | none => "Skip"
       | some b => if b then "Passed" else "Failed"
     nccl_bw := nccl.2.1
     nccl_multi_nodes := multi.nodes
     nccl_multi_bw := multi.busbw
     multi_status := match multi.passed with
       | .na => "Skip"
       | .val b => if b then "Passed" else "Failed"
     reboot_count := rebootCount
     initial_returncode := if overall then 0 else 1
     final_returncode := 0
     health_check_version := cfg.healthCheckVersion
     physical_host_name := gpu.2.2.1
     vm_name := gpu.2.2.2
     impactedResourceId := none }, overall)

/-- The final-save adjustment of the runner's `main` (lines 374-394):
`initial_returncode = 0` unconditionally, `final_returncode = 0 if overall
else 1`, `reboot_count` as accumulated, `impactedResourceId` filled from
`fetch_imds_resource_id()` (oracle `resId`). -/
def finalizeResult (r : RunnerResult) (overall : Bool) (rebootCount : Nat)
    (resId : String) : RunnerResult :=
  { r with initial_returncode := 0
           final_returncode := if overall then 0 else 1
           reboot_count := rebootCount
           impactedResourceId := some resId }

/-- The runner's `while True` loop.  The source loop terminates because
`reboot_count` strictly increases while it stays below `MAX_REBOOT_COUNT`;
`fuel` is that termination measure made explicit (call sites pass
`cfg.maxr - rc`, so the fuel-exhausted continue branch, which requires
`rc < cfg.maxr` i.e. positive remaining fuel, is unreachable and is mapped
to the final save).  Returns the intermediate saves made on the reboot
path, in order, together with the final save. -/
def runnerLoop (cfg : RunnerConfig) (iters : Nat → RunnerIter) (resId : String) :
    (fuel iteration rc : Nat) → List RunnerResult × RunnerResult
  | fuel, iteration, rc =>
    let step := buildIterResult cfg (iters iteration) rc
    if step.2 = false ∧ cfg.enable = true ∧ rc < cfg.maxr then
      match fuel with
      | 0 => ([], finalizeResult step.1 step.2 rc resId)
      | fuel + 1 =>
        let rest := runnerLoop cfg iters resId fuel (iteration + 1) (rc + 1)
        ({ step.1 with reboot_count := rc + 1 } :: rest.1, rest.2)
    else
      ([], finalizeResult step.1 step.2 rc resId)

/-- The runner's `main`: start the loop at the reboot count loaded from the
previous result artifact (`rc0`, 0 on a fresh run). -/
def runnerMain (cfg : RunnerConfig) (iters : Nat → RunnerIter) (resId : String)
    (rc0 : Nat) : List RunnerResult × RunnerResult :=
  runnerLoop cfg iters resId (cfg.maxr - rc0) 0 rc0

/-- View of a saved runner result as an element of the `all_results` list
read by `run_ghr_if_needed`: the dict written by `save_result` carries the
combined `error_codes` key but none of the per-probe
`nhc_error_codes` / `nccl_error_codes` / `multi_error_codes` keys. -/
def RunnerResult.toGhrEntry (r : RunnerResult) : GhrEntry :=
  { node := some r.node
    nhc_error_codes := none
    nccl_error_codes := none
    multi_error_codes := none
    error_codes := some r.error_codes }

/-! ## Fleet coordinator (health_manager/cluster_health_orchestrator.py) -/

/-- The JSON result artifact as loaded by `run_check_on_node`
(lines 121-135): every consulted key may be absent, which
`data.setdefault(...)` then fills. -/
structure LoadedJson where
  node : Option String
  timestamp : Option String
  initial_returncode : Option Int
  final_returncode : Option Int
  reboot_count : Option Int
  error_codes : List String
  deriving Repr, DecidableEq

/-- A collected per-node entry of the orchestrator's `results` list. -/
structure OrchResult where
  node : String
  timestamp : String
  initial_returncode : Int
  final_returncode : Int
  reboot_count : Int
  error_codes : List String
  error : Option String
  deriving Repr, DecidableEq

/-- How one `run_check_on_node` call ends, after its ssh/reboot loop. -/
inductive RunOutcome where
  /-- The node's result JSON exists and loads as `d`. -/
  | jsonFound (d : LoadedJson)
  /-- `os.path.exists(json_path)` is false. -/
  | jsonMissing
  deriving Repr

/-- What the worker future delivers for one node: either
`run_check_on_node` completes, or an exception escapes it (e.g. the 600 s
`subprocess.run` timeout) and surfaces at `fut.result()`. -/
inductive WorkerOutcome where
  | completed (o : RunOutcome)
  | exn (msg : String)
  deriving Repr

/-- The result-collection tail of `run_check_on_node` (lines 121-143):
load the JSON and apply the `setdefault` defaults, or build the
`remote JSON not found` fallback with both return codes 255. -/
def run_check_on_node_result (ts node : String) : RunOutcome → OrchResult
  | .jsonFound d =>
    { node := d.node.getD node
      timestamp := d.timestamp.getD ts
      initial_returncode := d.initial_returncode.getD 255
      final_returncode := d.final_returncode.getD 255
      reboot_count := d.reboot_count.getD 0
      error_codes := d.error_codes
      error := none }
  | .jsonMissing =>
    { node := node, timestamp := ts, initial_returncode := 255,
      final_returncode := 255, reboot_count := 0, error_codes := [],
      error := some "remote JSON not found" }

/-- One node's contribution to `results` in the orchestrator's `main`
(lines 149-172): the completed worker's data, or the exception fallback
built in the `except` branch around `fut.result()`. -/
def workerStep (ts node : String) : WorkerOutcome → OrchResult
  | .completed o => run_check_on_node_result ts node o
  | .exn msg =>
    { node := node, timestamp := ts, initial_returncode := 255,
      final_returncode := 255, reboot_count := 0, error_codes := [],
      error := some msg }

/-- The orchestrator's result collection: one entry per node, appended in
completion order (`order`, some permutation of the fleet). -/
def orchestratorCollect (ts : String) (order : List String)
    (outcome : String → WorkerOutcome) : List OrchResult :=
  order.map fun node => workerStep ts node (outcome node)

/-- The reboot retries performed by `run_check_on_node`'s
`for attempt in range(1, MAX_REBOOT_COUNT + 2)` loop (lines 79-105):
`flag attempt` is whether `/tmp/reboot_required` exists after the run of
attempt number `attempt`; a reboot is issued only when the flag is present
and `attempt <= MAX_REBOOT_COUNT`. -/
def orchRebootLoop (maxr : Nat) (flag : Nat → Bool) : (attempt remaining : Nat) → Nat
  | _, 0 => 0
  | attempt, remaining + 1 =>
    if flag attempt = false then 0
    else if attempt > maxr then 0
    else orchRebootLoop maxr flag (attempt + 1) remaining + 1

/-- Number of reboots `run_check_on_node` issues for one node. -/
def orchRebootCount (maxr : Nat) (flag : Nat → Bool) : Nat :=
  orchRebootLoop maxr flag 1 (maxr + 1)

/-- The `node` key carried by the loaded result JSON of a worker outcome,
if any (`data.setdefault("node", node)` keeps it when present). -/
def jsonNodeField : WorkerOutcome → Option String
  | .completed (.jsonFound d) => d.node
  | _ => none

/-- The records a `run_ghr_if_needed` outcome appended to the durable log. -/
def ghrOutcomeRecords : GhrOutcome → List GhrRecord
  | .submitted _ records _ => records
  | _ => []

/-! ## Concrete example inputs, used in counterexamples and witnesses -/

/-- A compute-node runner configuration with remediation disabled. -/
def cfgDisabled : RunnerConfig :=
  { nodeName := "slurm00-htc-1", timestamp := "20250101-0000",
    nodePfx := "slurm00-htc", nodeCount := 1, bwThreshold := 480,
    multiThreshold := 350, enable := false, maxr := 1,
    healthCheckVersion := "v0.4.4" }

/-- The same configuration with remediation enabled and
`MAX_REBOOT_COUNT = 2` (the spec example of §8). -/
def cfgEnabled : RunnerConfig :=
  { cfgDisabled with enable := true, maxr := 2 }

/-- Probe-pass inputs where the NHC log shows a failure with error code
NHC2001 and both NCCL tests pass. -/
def iterGpuFail : RunnerIter :=
  { gpu := .ok "FAIL NHC2001",
    nccl := { smi := some ["GPU 0", "GPU 1", "GPU 2", "GPU 3", "GPU 4",
                           "GPU 5", "GPU 6", "GPU 7"],
              execOk := true, parse := .bw 500 },
    multi := { gpuCount := fun _ => some 8, execOk := true, parse := .bw 400 } }

/-- Probe-pass inputs for a node where `nvidia-smi -L` lists zero GPUs and
the NHC log is clean. -/
def iterZeroGpu : RunnerIter :=
  { gpu := .ok "healthy",
    nccl := { smi := some [], execOk := true, parse := .bw 500 },
    multi := { gpuCount := fun _ => some 8, execOk := true, parse := .bw 400 } }

/-- An enabled escalation configuration with `GHR_MAX_RETRIES = 3`. -/
def ghrCfgW : GhrConfig :=
  { enable := true, skipHours := 24, maxNodes := 10, maxRetries := 3,
    category := "NHC2001", description := "", additional := [] }

/-- A result entry carrying an error code under the per-probe key the
controller reads. -/
def entryNhc : GhrEntry :=
  { node := some "slurm00-htc-2", nhc_error_codes := some ["NHC2001"],
    nccl_error_codes := none, multi_error_codes := none, error_codes := none }

/-- A worker-outcome oracle: `n1` raises in its worker, every other node
completes with a loaded result JSON that carries no `node` key. -/
def outcomeW : String → WorkerOutcome := fun n =>
  if n = "n1" then .exn "boom"
  else .completed (.jsonFound
    { node := none, timestamp := some "t", initial_returncode := some 0,
      final_returncode := some 0, reboot_count := some 0, error_codes := [] })

/-! ## Helper lemmas -/

theorem workerStep_node (ts n : String) (o : WorkerOutcome)
    (h : jsonNodeField o = none ∨ jsonNodeField o = some n) :
    (workerStep ts n o).node = n := by
  match o with
  | .exn msg => rfl
  | .completed .jsonMissing => rfl
  | .completed (.jsonFound d) =>
    simp only [jsonNodeField] at h
    rcases h with h | h <;>
      simp [workerStep, run_check_on_node_result, h]

/-! ## C1 -/

/-- C1: for every fleet of node identifiers and every per-node worker
outcome (including exceptions and missing result artifacts), the
coordinator collects exactly one result per input node identifier: the
result list has the fleet size, and its node fields are a permutation of
the fleet (order = completion order).  The hypothesis `hnode` records
that a loaded result JSON either lacks the `node` key or names the node
it was fetched for, which holds of the artifacts the runner writes. -/
theorem c1_fleet_one_result_per_node (ts : String) (nodes order : List String)
    (outcome : String → WorkerOutcome) (hperm : order.Perm nodes)
    (hnode : ∀ n, jsonNodeField (outcome n) = none ∨ jsonNodeField (outcome n) = some n) :
    (orchestratorCollect ts order outcome).length = nodes.length ∧
    ((orchestratorCollect ts order outcome).map (fun r => r.node)).Perm nodes := by
  have hmap : (orchestratorCollect ts order outcome).map (fun r => r.node) = order := by
    unfold orchestratorCollect
    rw [List.map_map]
    have : ∀ n ∈ order, (workerStep ts n (outcome n)).node = n := fun n _ =>
      workerStep_node ts n (outcome n) (hnode n)
    calc order.map ((fun r => r.node) ∘ fun n => workerStep ts n (outcome n))
        = order.map id := List.map_congr_left this
      _ = order := List.map_id order
  constructor
  · unfold orchestratorCollect
    rw [List.length_map, hperm.length_eq]
  · rw [hmap]; exact hperm

/-- C1 witness: a two-node fleet collected in reversed completion order,
with one worker raising. -/
theorem c1_fleet_witness :
    (orchestratorCollect "ts" ["n2", "n1"] outcomeW).length = (["n1", "n2"] : List String).length ∧
    ((orchestratorCollect "ts" ["n2", "n1"] outcomeW).map (fun r => r.node)).Perm ["n1", "n2"] :=
  c1_fleet_one_result_per_node "ts" ["n1", "n2"] ["n2", "n1"] outcomeW (by decide)
    (fun n => Or.inl (by by_cases h : n = "n1" <;> simp [outcomeW, h, jsonNodeField]))

/-! ## C2 -/

/-- C2: a per-node fault is converted into the fallback result with
`initial_returncode = final_returncode = 255` and an `error` annotation —
both for an exception escaping the worker and for a missing result JSON —
and the collected list is pointwise (entry `i` depends only on node `i`
and its own outcome), so one node's fault neither aborts nor blocks
collection from any other node. -/
theorem c2_per_node_fault_isolation (ts node msg : String) (order : List String)
    (outcome : String → WorkerOutcome) (i : Nat) :
    workerStep ts node (.exn msg) =
      { node := node, timestamp := ts, initial_returncode := 255,
        final_returncode := 255, reboot_count := 0, error_codes := [],
        error := some msg } ∧
    workerStep ts node (.completed .jsonMissing) =
      { node := node, timestamp := ts, initial_returncode := 255,
        final_returncode := 255, reboot_count := 0, error_codes := [],
        error := some "remote JSON not found" } ∧
    (orchestratorCollect ts order outcome).length = order.length ∧
    (orchestratorCollect ts order outcome)[i]? =
      (order[i]?).map fun m => workerStep ts m (outcome m) := by
  refine ⟨rfl, rfl, ?_, ?_⟩
  · unfold orchestratorCollect; rw [List.length_map]
  · unfold orchestratorCollect; rw [List.getElem?_map]

/-! ## Runner-loop lemmas -/

theorem buildIterResult_snd (cfg : RunnerConfig) (it : RunnerIter) (rc : Nat) :
    (buildIterResult cfg it rc).2 = iterOverall cfg it := by
  simp only [buildIterResult]

theorem buildIterResult_initial (cfg : RunnerConfig) (it : RunnerIter) (rc : Nat) :
    (buildIterResult cfg it rc).1.initial_returncode =
      if iterOverall cfg it then 0 else 1 := by
  simp only [buildIterResult]

theorem runnerLoop_bounds (cfg : RunnerConfig) (iters : Nat → RunnerIter)
    (resId : String) :
    ∀ fuel it rc, rc ≤ cfg.maxr →
      (∀ r ∈ (runnerLoop cfg iters resId fuel it rc).1, r.reboot_count ≤ cfg.maxr) ∧
      (runnerLoop cfg iters resId fuel it rc).2.reboot_count ≤ cfg.maxr ∧
      (runnerLoop cfg iters resId fuel it rc).1.length ≤ cfg.maxr - rc := by
  intro fuel
  induction fuel with
  | zero =>
    intro it rc h
    rw [runnerLoop]
    split
    · simp [finalizeResult, h]
    · simp [finalizeResult, h]
  | succ f ih =>
    intro it rc h
    rw [runnerLoop]
    split
    · rename_i hcond
      have hrc : rc < cfg.maxr := hcond.2.2
      obtain ⟨ih1, ih2, ih3⟩ := ih (it + 1) (rc + 1) (by omega)
      refine ⟨?_, ih2, ?_⟩
      · intro r hr
        rcases List.mem_cons.mp hr with hr | hr
        · subst hr; simpa using hrc
        · exact ih1 r hr
      · simpa using by omega
    · simp [finalizeResult, h]

theorem runnerLoop_allfail (cfg : RunnerConfig) (iters : Nat → RunnerIter)
    (resId : String) (he : cfg.enable = true)
    (hf : ∀ i, iterOverall cfg (iters i) = false) :
    ∀ fuel it rc, cfg.maxr - rc = fuel → rc ≤ cfg.maxr →
      (runnerLoop cfg iters resId fuel it rc).2.final_returncode = 1 ∧
      (runnerLoop cfg iters resId fuel it rc).2.reboot_count = cfg.maxr ∧
      (runnerLoop cfg iters resId fuel it rc).1.length = fuel := by
  intro fuel
  induction fuel with
  | zero =>
    intro it rc hfuel h
    have hrc : rc = cfg.maxr := by omega
    rw [runnerLoop]
    split
    · rename_i hcond; omega
    · simp [finalizeResult, buildIterResult_snd, hf it, hrc]
  | succ f ih =>
    intro it rc hfuel h
    have hrc : rc < cfg.maxr := by omega
    rw [runnerLoop]
    split
    · rename_i hcond
      obtain ⟨ih1, ih2, ih3⟩ := ih (it + 1) (rc + 1) (by omega) (by omega)
      exact ⟨ih1, ih2, by simpa using ih3⟩
    · rename_i hcond
      exact absurd ⟨by rw [buildIterResult_snd]; exact hf it, he, hrc⟩ hcond

theorem runnerLoop_initial (cfg : RunnerConfig) (iters : Nat → RunnerIter)
    (resId : String) :
    ∀ fuel it rc,
      (runnerLoop cfg iters resId fuel it rc).2.initial_returncode = 0 ∧
      ∀ r ∈ (runnerLoop cfg iters resId fuel it rc).1, r.initial_returncode = 1 := by
  intro fuel
  induction fuel with
  | zero =>
    intro it rc
    rw [runnerLoop]
    split <;> simp [finalizeResult]
  | succ f ih =>
    intro it rc
    rw [runnerLoop]
    split
    · rename_i hcond
      obtain ⟨ih1, ih2⟩ := ih (it + 1) (rc + 1)
      refine ⟨ih1, ?_⟩
      intro r hr
      rcases List.mem_cons.mp hr with hr | hr
      · subst hr
        have : iterOverall cfg (iters it) = false := by
          rw [← buildIterResult_snd cfg (iters it) rc]; exact hcond.1
        simp [buildIterResult_initial, this]
      · exact ih2 r hr
    · simp [finalizeResult]

theorem orchRebootLoop_le (maxr : Nat) (flag : Nat → Bool) :
    ∀ remaining attempt, orchRebootLoop maxr flag attempt remaining ≤ maxr + 1 - attempt := by
  intro remaining
  induction remaining with
  | zero => intro attempt; simp [orchRebootLoop]
  | succ r ih =>
    intro attempt
    rw [orchRebootLoop]
    split
    · omega
    · split
      · omega
      · rename_i h1 h2
        have := ih (attempt + 1)
        omega

/-! ## C4 -/

/-- C4: with a configured maximum reboot count, at most that many reboot
cycles are triggered: every persisted result (intermediate or final) has
`reboot_count ≤ maxr`, the number of reboot cycles (intermediate saves) is
at most `maxr - rc0`, a node failing every probe pass under
remediation-enabled configuration finalizes with `final_returncode = 1`
and `reboot_count = maxr` after exactly `maxr` reboots, and the
orchestrator-side retry loop likewise issues at most `maxr` reboots. -/
theorem c4_reboot_bound (cfg : RunnerConfig) (iters : Nat → RunnerIter)
    (resId : String) (rc0 : Nat) (h0 : rc0 ≤ cfg.maxr) :
    (∀ r ∈ (runnerMain cfg iters resId rc0).1, r.reboot_count ≤ cfg.maxr) ∧
    (runnerMain cfg iters resId rc0).2.reboot_count ≤ cfg.maxr ∧
    (runnerMain cfg iters resId rc0).1.length ≤ cfg.maxr - rc0 ∧
    (cfg.enable = true → rc0 = 0 → (∀ i, iterOverall cfg (iters i) = false) →
      (runnerMain cfg iters resId rc0).2.final_returncode = 1 ∧
      (runnerMain cfg iters resId rc0).2.reboot_count = cfg.maxr ∧
      (runnerMain cfg iters resId rc0).1.length = cfg.maxr) ∧
    (∀ flag : Nat → Bool, orchRebootCount cfg.maxr flag ≤ cfg.maxr) := by
  obtain ⟨b1, b2, b3⟩ :=
    runnerLoop_bounds cfg iters resId (cfg.maxr - rc0) 0 rc0 h0
  refine ⟨b1, b2, b3, ?_, ?_⟩
  · intro he hrc0 hf
    obtain ⟨a1, a2, a3⟩ := runnerLoop_allfail cfg iters resId he hf
      (cfg.maxr - rc0) 0 rc0 rfl h0
    refine ⟨a1, a2, ?_⟩
    show (runnerLoop cfg iters resId (cfg.maxr - rc0) 0 rc0).1.length = cfg.maxr
    omega
  · intro flag
    have := orchRebootLoop_le cfg.maxr flag (cfg.maxr + 1) 1
    unfold orchRebootCount
    omega

/-- C4 witness: the spec §8 scenario — remediation enabled,
`maxRebootCount = 2`, every probe pass failing — finalizes with
`final_returncode = 1` after exactly 2 reboot cycles. -/
theorem c4_reboot_witness :
    (runnerMain cfgEnabled (fun _ => iterGpuFail) "rid" 0).2.final_returncode = 1 ∧
    (runnerMain cfgEnabled (fun _ => iterGpuFail) "rid" 0).2.reboot_count = 2 ∧
    (runnerMain cfgEnabled (fun _ => iterGpuFail) "rid" 0).1.length = 2 :=
  (c4_reboot_bound cfgEnabled (fun _ => iterGpuFail) "rid" 0
    (by decide)).2.2.2.1 rfl rfl (fun _ => by decide)

/-! ## C9 -/

/-- C9: in every terminal result written by the final save of the runner
state machine, `initial_returncode = 0` unconditionally — a
first-pass probe failure is recorded with `initial_returncode = 1` only
in the intermediate results saved before a reboot, never in the final one. -/
theorem c9_final_save_initial_zero (cfg : RunnerConfig)
    (iters : Nat → RunnerIter) (resId : String) (rc0 : Nat) :
    (runnerMain cfg iters resId rc0).2.initial_returncode = 0 ∧
    ((runnerMain cfg iters resId rc0).1.all
      fun r => r.initial_returncode == 1) = true := by
  obtain ⟨h1, h2⟩ := runnerLoop_initial cfg iters resId (cfg.maxr - rc0) 0 rc0
  refine ⟨h1, ?_⟩
  rw [List.all_eq_true]
  intro r hr
  exact beq_iff_eq.mpr (h2 r hr)

/-! ## C3 -/

/-- C3 (supporting theorem for the schema-mismatch bug): a node whose NHC
log fails with error code NHC2001 ends with a result whose `error_codes`
field is `["NHC2001"]` and `final_returncode = 1`, yet the escalation
controller selects no runner-produced result, ever: the result dict
carries the combined `error_codes` key, while `run_ghr_if_needed` reads
only the absent `nhc_error_codes` / `nccl_error_codes` /
`multi_error_codes` keys. -/
theorem c3_ghr_schema_mismatch :
    (runnerMain cfgDisabled (fun _ => iterGpuFail) "rid" 0).2.error_codes = ["NHC2001"] ∧
    (runnerMain cfgDisabled (fun _ => iterGpuFail) "rid" 0).2.final_returncode = 1 ∧
    ∀ r : RunnerResult, ghrFailedNodes [r.toGhrEntry] = [] := by
  refine ⟨by decide, by decide, ?_⟩
  intro r
  simp [ghrFailedNodes, ghrCodesOf, RunnerResult.toGhrEntry]

/-! ## C10 -/

/-- C10 (supporting theorem): with zero GPUs detected, `run_nccl_test`
returns a passing outcome that still carries error code NCCL1001; the
final runner result then has `final_returncode = 0` with
`error_codes = ["NCCL1001"]` — but, contrary to the claim, such a node is
never placed in the escalation failure set, because the controller reads
per-probe keys the result dict does not carry. -/
theorem c10_zero_gpu_pass_with_code :
    run_nccl_test 480 { smi := some [], execOk := true, parse := .bw 500 }
      = (some true, some 0, ["NCCL1001"]) ∧
    (runnerMain cfgDisabled (fun _ => iterZeroGpu) "rid" 0).2.final_returncode = 0 ∧
    (runnerMain cfgDisabled (fun _ => iterZeroGpu) "rid" 0).2.error_codes = ["NCCL1001"] ∧
    ghrFailedNodes [(runnerMain cfgDisabled (fun _ => iterZeroGpu) "rid" 0).2.toGhrEntry] = [] := by
  refine ⟨by decide, by decide, by decide, by decide⟩

/-! ## Escalation-submitter lemmas -/

theorem ghrRetryLoop_length_le (reqId : String) (nodes : List FailedNode)
    (submitOk : Nat → Bool) (attemptTs : Nat → String) :
    ∀ remaining attempt,
      (ghrRetryLoop reqId nodes submitOk attemptTs attempt remaining).1.length ≤ remaining := by
  intro remaining
  induction remaining with
  | zero => intro attempt; simp [ghrRetryLoop]
  | succ r ih =>
    intro attempt
    rw [ghrRetryLoop]
    split
    · simp
    · simpa using ih (attempt + 1)

theorem ghrRetryLoop_allfail (reqId : String) (nodes : List FailedNode)
    (submitOk : Nat → Bool) (attemptTs : Nat → String)
    (hfail : ∀ i, submitOk i = false) :
    ∀ remaining attempt,
      ((ghrRetryLoop reqId nodes submitOk attemptTs attempt remaining).1.map
        fun r => r.status) = List.replicate remaining "failure" ∧
      (ghrRetryLoop reqId nodes submitOk attemptTs attempt remaining).2 = remaining := by
  intro remaining
  induction remaining with
  | zero => intro attempt; simp [ghrRetryLoop]
  | succ r ih =>
    intro attempt
    obtain ⟨ih1, ih2⟩ := ih (attempt + 1)
    rw [ghrRetryLoop]
    simp [hfail attempt, ih1, ih2, List.replicate_succ]

theorem ghrRetryLoop_first_success (reqId : String) (nodes : List FailedNode)
    (submitOk : Nat → Bool) (attemptTs : Nat → String) :
    ∀ remaining attempt k, attempt ≤ k → k < attempt + remaining →
      submitOk k = true → (∀ j, attempt ≤ j → j < k → submitOk j = false) →
      ((ghrRetryLoop reqId nodes submitOk attemptTs attempt remaining).1.map
        fun r => r.status) = List.replicate (k - attempt) "failure" ++ ["success"] ∧
      (ghrRetryLoop reqId nodes submitOk attemptTs attempt remaining).2 = k - attempt := by
  intro remaining
  induction remaining with
  | zero => intro attempt k h1 h2 _ _; omega
  | succ r ih =>
    intro attempt k h1 h2 hk hj
    by_cases ha : submitOk attempt = true
    · have hka : k = attempt := by
        by_contra hne
        have hlt : attempt < k := lt_of_le_of_ne h1 fun h => hne h.symm
        exact absurd ha (by simp [hj attempt le_rfl hlt])
      subst hka
      rw [ghrRetryLoop]
      simp [ha]
    · have ha' : submitOk attempt = false := by simpa using ha
      have hlt : attempt < k := by
        rcases Nat.lt_or_ge attempt k with h | h
        · exact h
        · have hak : attempt = k := Nat.le_antisymm h1 h
          rw [hak] at ha'
          simp [ha'] at hk
      obtain ⟨m1, m2⟩ := ih (attempt + 1) k (by omega) (by omega) hk
        (fun j hj1 hj2 => hj j (by omega) hj2)
      rw [ghrRetryLoop]
      have hrep : k - attempt = (k - (attempt + 1)) + 1 := by omega
      constructor
      · simp [ha', m1, hrep, List.replicate_succ]
      · simp [ha', m2]; omega

theorem ghrRetryLoop_requestId (reqId : String) (nodes : List FailedNode)
    (submitOk : Nat → Bool) (attemptTs : Nat → String) :
    ∀ remaining attempt,
      ((ghrRetryLoop reqId nodes submitOk attemptTs attempt remaining).1.all
        fun r => r.requestId == reqId) = true := by
  intro remaining
  induction remaining with
  | zero => intro attempt; simp [ghrRetryLoop]
  | succ r ih =>
    intro attempt
    rw [ghrRetryLoop]
    split
    · simp
    · simpa using ih (attempt + 1)

theorem run_ghr_submitted (cfg : GhrConfig) (log : List LogLine) (now : Int)
    (allResults : List GhrEntry) (payloadTs genId : String)
    (submitOk : Nat → Bool) (attemptTs : Nat → String)
    (henable : cfg.enable = true)
    (hrecent : has_recent_success log (now - cfg.skipHours * 3600) = false)
    (hfailed : ghrFailedNodes allResults ≠ []) :
    run_ghr_if_needed cfg log now allResults payloadTs genId submitOk attemptTs =
      .submitted
        (build_ghr_payload cfg.category cfg.description cfg.additional
          (ghrBatch cfg.maxNodes allResults) payloadTs genId)
        (ghrRetryLoop genId (ghrBatch cfg.maxNodes allResults) submitOk attemptTs
          1 cfg.maxRetries).1
        (ghrRetryLoop genId (ghrBatch cfg.maxNodes allResults) submitOk attemptTs
          1 cfg.maxRetries).2 := by
  unfold run_ghr_if_needed
  rw [if_neg (by simp [henable]), if_neg (by simp [hrecent]), if_neg hfailed]
  rfl

theorem has_recent_success_iff_exists (log : List LogLine) (cutoff : Int) :
    has_recent_success log cutoff = true ↔ ∃ t ∈ successTimes log, cutoff ≤ t := by
  unfold has_recent_success
  rw [List.any_eq_true]
  constructor
  · rintro ⟨line, hmem, hp⟩
    rw [List.mem_reverse] at hmem
    match line with
    | none => simp at hp
    | some e =>
      simp only [Bool.and_eq_true, beq_iff_eq, decide_eq_true_eq] at hp
      refine ⟨e.timestamp, ?_, hp.2⟩
      exact List.mem_filterMap.mpr ⟨some e, hmem, by simp [hp.1]⟩
  · rintro ⟨t, hmem, hct⟩
    obtain ⟨line, hline, heq⟩ := List.mem_filterMap.mp hmem
    match line with
    | none => simp at heq
    | some e =>
      simp only [Option.ite_none_right_eq_some, Option.some.injEq] at heq
      refine ⟨some e, List.mem_reverse.mpr hline, ?_⟩
      have h1 : e.status == some "success" := heq.1
      have h2 : e.timestamp = t := heq.2
      simp [h1, h2, hct]

theorem exists_le_iff_max (l : List Int) (c : Int) :
    (∃ t ∈ l, c ≤ t) ↔ ∃ m, l.max? = some m ∧ c ≤ m := by
  haveI : Std.Antisymm fun x1 x2 : Int => x1 ≤ x2 :=
    ⟨fun h1 h2 => le_antisymm h1 h2⟩
  have hiff : ∀ a : Int, l.max? = some a ↔ a ∈ l ∧ ∀ b ∈ l, b ≤ a := fun a =>
    List.max?_eq_some_iff (fun x => le_refl x) max_choice (fun x y z => max_le_iff)
  constructor
  · rintro ⟨t, ht, hct⟩
    cases hmax : l.max? with
    | none =>
      rw [List.max?_eq_none_iff] at hmax
      subst hmax
      simp at ht
    | some m =>
      exact ⟨m, rfl, le_trans hct (((hiff m).mp hmax).2 t ht)⟩
  · rintro ⟨m, hmax, hcm⟩
    exact ⟨m, ((hiff m).mp hmax).1, hcm⟩

theorem has_recent_success_malformed (pre post : List LogLine) (cutoff : Int) :
    has_recent_success (pre ++ none :: post) cutoff =
      has_recent_success (pre ++ post) cutoff := by
  simp [has_recent_success, List.reverse_append, List.any_append]

/-! ## C5 -/

/-- C5: when submission goes ahead, the retry loop makes at most
`maxRetries` attempts, appending exactly one record per attempt; on
persistent transport failure it makes exactly `maxRetries` attempts, all
logged as failure records, with one fixed-interval sleep after each
failure; on a first success at attempt `k` it stops there, having logged
`k - 1` failure records and one success record, with `k - 1` sleeps
(one between each pair of consecutive attempts).  The embedded submitter
is a total function of its oracles: transport failures are caught per
attempt and never escape to the caller. -/
theorem c5_retry_policy (cfg : GhrConfig) (log : List LogLine) (now : Int)
    (allResults : List GhrEntry) (payloadTs genId : String)
    (submitOk : Nat → Bool) (attemptTs : Nat → String)
    (henable : cfg.enable = true)
    (hrecent : has_recent_success log (now - cfg.skipHours * 3600) = false)
    (hfailed : ghrFailedNodes allResults ≠ []) :
    run_ghr_if_needed cfg log now allResults payloadTs genId submitOk attemptTs =
      .submitted
        (build_ghr_payload cfg.category cfg.description cfg.additional
          (ghrBatch cfg.maxNodes allResults) payloadTs genId)
        (ghrRetryLoop genId (ghrBatch cfg.maxNodes allResults) submitOk attemptTs
          1 cfg.maxRetries).1
        (ghrRetryLoop genId (ghrBatch cfg.maxNodes allResults) submitOk attemptTs
          1 cfg.maxRetries).2 ∧
    (ghrRetryLoop genId (ghrBatch cfg.maxNodes allResults) submitOk attemptTs
      1 cfg.maxRetries).1.length ≤ cfg.maxRetries ∧
    ((∀ i, submitOk i = false) →
      ((ghrRetryLoop genId (ghrBatch cfg.maxNodes allResults) submitOk attemptTs
        1 cfg.maxRetries).1.map fun r => r.status) =
          List.replicate cfg.maxRetries "failure" ∧
      (ghrRetryLoop genId (ghrBatch cfg.maxNodes allResults) submitOk attemptTs
        1 cfg.maxRetries).2 = cfg.maxRetries) ∧
    (∀ k, 1 ≤ k → k ≤ cfg.maxRetries → submitOk k = true →
      (∀ j, 1 ≤ j → j < k → submitOk j = false) →
      ((ghrRetryLoop genId (ghrBatch cfg.maxNodes allResults) submitOk attemptTs
        1 cfg.maxRetries).1.map fun r => r.status) =
          List.replicate (k - 1) "failure" ++ ["success"] ∧
      (ghrRetryLoop genId (ghrBatch cfg.maxNodes allResults) submitOk attemptTs
        1 cfg.maxRetries).2 = k - 1) := by
  refine ⟨run_ghr_submitted cfg log now allResults payloadTs genId submitOk
    attemptTs henable hrecent hfailed, ?_, ?_, ?_⟩
  · exact ghrRetryLoop_length_le genId (ghrBatch cfg.maxNodes allResults)
      submitOk attemptTs cfg.maxRetries 1
  · intro hfail
    exact ghrRetryLoop_allfail genId (ghrBatch cfg.maxNodes allResults)
      submitOk attemptTs hfail cfg.maxRetries 1
  · intro k hk1 hk2 hks hj
    exact ghrRetryLoop_first_success genId (ghrBatch cfg.maxNodes allResults)
      submitOk attemptTs cfg.maxRetries 1 k hk1 (by omega) hks hj

/-- C5 witness: with `maxRetries = 3` and a transport that always fails,
the submitter appends exactly three failure records and sleeps three
times. -/
theorem c5_retry_witness :
    ((ghrRetryLoop "rid" (ghrBatch ghrCfgW.maxNodes [entryNhc]) (fun _ => false)
      (fun _ => "t") 1 ghrCfgW.maxRetries).1.map fun r => r.status) =
        List.replicate 3 "failure" ∧
    (ghrRetryLoop "rid" (ghrBatch ghrCfgW.maxNodes [entryNhc]) (fun _ => false)
      (fun _ => "t") 1 ghrCfgW.maxRetries).2 = 3 :=
  (c5_retry_policy ghrCfgW [] 0 [entryNhc] "ts" "rid" (fun _ => false)
    (fun _ => "t") rfl (by decide) (by decide)).2.2.1 (fun _ => rfl)

/-! ## C6 -/

/-- C6: with escalation enabled and a non-empty failure batch, the run is
skipped if and only if the most recent parsable `success` entry of the
durable log (the one with the greatest timestamp) lies within the
deduplication window; a malformed log line anywhere in the scan changes
nothing; and an absent log (empty line list) never causes a skip. -/
theorem c6_dedup_window (cfg : GhrConfig) (log : List LogLine) (now : Int)
    (allResults : List GhrEntry) (payloadTs genId : String)
    (submitOk : Nat → Bool) (attemptTs : Nat → String)
    (henable : cfg.enable = true)
    (hfailed : ghrFailedNodes allResults ≠ []) :
    (run_ghr_if_needed cfg log now allResults payloadTs genId submitOk attemptTs
        = .skippedRecent ↔
      ∃ t, mostRecentSuccessTs log = some t ∧ now - cfg.skipHours * 3600 ≤ t) ∧
    (∀ pre post : List LogLine, ∀ cutoff : Int,
      has_recent_success (pre ++ none :: post) cutoff =
        has_recent_success (pre ++ post) cutoff) ∧
    has_recent_success [] (now - cfg.skipHours * 3600) = false := by
  refine ⟨?_, has_recent_success_malformed, rfl⟩
  have hmain : has_recent_success log (now - cfg.skipHours * 3600) = true ↔
      ∃ t, mostRecentSuccessTs log = some t ∧ now - cfg.skipHours * 3600 ≤ t := by
    rw [has_recent_success_iff_exists]
    unfold mostRecentSuccessTs
    constructor
    · rintro ⟨t, ht, hct⟩
      obtain ⟨m, hm, hcm⟩ := (exists_le_iff_max (successTimes log) _).mp ⟨t, ht, hct⟩
      exact ⟨m, hm, hcm⟩
    · rintro ⟨m, hm, hcm⟩
      exact (exists_le_iff_max (successTimes log) _).mpr ⟨m, hm, hcm⟩
  by_cases hrec : has_recent_success log (now - cfg.skipHours * 3600) = true
  · rw [← hmain]
    constructor
    · intro _; exact hrec
    · intro _
      unfold run_ghr_if_needed
      rw [if_neg (by simp [henable]), if_pos hrec]
  · have hrec' : has_recent_success log (now - cfg.skipHours * 3600) = false := by
      simpa using hrec
    rw [run_ghr_submitted cfg log now allResults payloadTs genId submitOk
      attemptTs henable hrec' hfailed]
    constructor
    · intro h; exact GhrOutcome.noConfusion h
    · intro h; exact absurd (hmain.mpr h) hrec

/-- C6 witness: a log whose latest success entry is inside the 24-hour
window causes the run to be skipped. -/
theorem c6_dedup_witness :
    run_ghr_if_needed ghrCfgW [some ⟨1000, some "success"⟩] 1000 [entryNhc]
      "ts" "rid" (fun _ => false) (fun _ => "t") = .skippedRecent :=
  (c6_dedup_window ghrCfgW [some ⟨1000, some "success"⟩] 1000 [entryNhc]
    "ts" "rid" (fun _ => false) (fun _ => "t") rfl (by decide)).1.mpr
    ⟨1000, by decide, by decide⟩

/-! ## C7 -/

/-- C7 counterexample: the payload and its generated request identifier
are built once, before the retry loop, so a run of three failing
submission attempts submits the same `requestId` three times — the
claimed per-attempt uniqueness fails at this input. -/
theorem c7_counterexample :
    (ghrOutcomeRecords (run_ghr_if_needed ghrCfgW [] 0 [entryNhc] "ts" "rid-1"
      (fun _ => false) (fun _ => "t"))).map (fun r => (r.status, r.requestId)) =
    [("failure", "rid-1"), ("failure", "rid-1"), ("failure", "rid-1")] := by
  decide

/-- C7 amended: the request identifier is generated once per escalation
run, when the payload is built; every submission attempt of that run
(and every appended record) carries that same identifier. -/
theorem c7_requestId_per_run (cfg : GhrConfig) (log : List LogLine) (now : Int)
    (allResults : List GhrEntry) (payloadTs genId : String)
    (submitOk : Nat → Bool) (attemptTs : Nat → String)
    (henable : cfg.enable = true)
    (hrecent : has_recent_success log (now - cfg.skipHours * 3600) = false)
    (hfailed : ghrFailedNodes allResults ≠ []) :
    run_ghr_if_needed cfg log now allResults payloadTs genId submitOk attemptTs =
      .submitted
        (build_ghr_payload cfg.category cfg.description cfg.additional
          (ghrBatch cfg.maxNodes allResults) payloadTs genId)
        (ghrRetryLoop genId (ghrBatch cfg.maxNodes allResults) submitOk attemptTs
          1 cfg.maxRetries).1
        (ghrRetryLoop genId (ghrBatch cfg.maxNodes allResults) submitOk attemptTs
          1 cfg.maxRetries).2 ∧
    (build_ghr_payload cfg.category cfg.description cfg.additional
      (ghrBatch cfg.maxNodes allResults) payloadTs genId).requestId = genId ∧
    ((ghrRetryLoop genId (ghrBatch cfg.maxNodes allResults) submitOk attemptTs
      1 cfg.maxRetries).1.all fun r => r.requestId == genId) = true := by
  refine ⟨run_ghr_submitted cfg log now allResults payloadTs genId submitOk
    attemptTs henable hrecent hfailed, rfl, ?_⟩
  exact ghrRetryLoop_requestId genId (ghrBatch cfg.maxNodes allResults)
    submitOk attemptTs cfg.maxRetries 1

/-- C7 witness for the amended claim: in the all-fail run, every record
carries the single generated identifier. -/
theorem c7_requestId_witness :
    ((ghrRetryLoop "rid-1" (ghrBatch ghrCfgW.maxNodes [entryNhc]) (fun _ => false)
      (fun _ => "t") 1 ghrCfgW.maxRetries).1.all
        fun r => r.requestId == "rid-1") = true :=
  (c7_requestId_per_run ghrCfgW [] 0 [entryNhc] "ts" "rid-1" (fun _ => false)
    (fun _ => "t") rfl (by decide) (by decide)).2.2

/-! ## C8 -/

/-- C8 counterexample: an adapter-level failure (120 s timeout) of the GPU
health check yields a failed outcome whose error-code list is empty — so
not every failed probe outcome carries a non-empty code sequence, and the
timeout does not produce an adapter-specific code. -/
theorem c8_counterexample :
    (run_gpu_health_check "slurm00-htc-1" .timeout).1 = false ∧
    (run_gpu_health_check "slurm00-htc-1" .timeout).2.1.nhc_error_codes = some [] := by
  decide

/-- C8 amended: the NCCL single-node and multi-node probes do satisfy the
invariant (a failed outcome always carries at least one error code), but
every adapter-level failure of the GPU health check — non-zero script
exit, timeout, or any other exception — yields a failed outcome with an
empty error-code list instead of an adapter-specific code. -/
theorem c8_failed_nonempty_codes (bwT multiT : ℚ) (pfx2 : String) (cnt : Nat)
    (inp : NcclInput) (minp : MultiInput) (nodeName : String) (e : GpuExec)
    (hsch : strEndsWith nodeName "-scheduler" = false)
    (he : e = .scriptFailed ∨ e = .timeout ∨ e = .execError) :
    ((run_nccl_test bwT inp).1 = some false → (run_nccl_test bwT inp).2.2 ≠ []) ∧
    ((run_nccl_multi_node_test pfx2 cnt multiT minp).passed = .val false →
      (run_nccl_multi_node_test pfx2 cnt multiT minp).multi_error_codes ≠ []) ∧
    run_gpu_health_check nodeName e =
      (false, { log := "", nhc_error_codes := some [] }, "", "") := by
  refine ⟨?_, ?_, ?_⟩
  · rcases inp with ⟨smi, execOk, parse⟩
    cases smi with
    | none => simp [run_nccl_test]
    | some lines =>
      cases parse <;> cases execOk <;>
        simp only [run_nccl_test] <;> split_ifs <;> simp_all
  · simp only [run_nccl_multi_node_test]
    split
    · simp
    · split
      · simp
      · split
        · simp
        · split
          · simp
          · simp
          · split <;> simp
  · rcases he with rfl | rfl | rfl <;> simp [run_gpu_health_check, hsch]

/-- C8 witness for the amended claim: concrete instantiation at a failing
single-node NCCL run and a timed-out GPU check. -/
theorem c8_probe_witness :
    run_gpu_health_check "slurm00-htc-1" .timeout =
      (false, { log := "", nhc_error_codes := some [] }, "", "") :=
  (c8_failed_nonempty_codes 480 350 "slurm00-htc" 2
    { smi := some [], execOk := true, parse := .bw 500 }
    { gpuCount := fun _ => some 8, execOk := true, parse := .bw 400 }
    "slurm00-htc-1" .timeout (by decide) (Or.inr (Or.inl rfl))).2.2

end HealthManager
